import Mathlib

/-!
# Verification of the onePercent trading system

Shallow embedding of the two components of the repository:

* `backtest.py` — `OnePercentBacktest`: a pure backtesting engine that replays
  a bar sequence, entering on a volume spike and exiting at a +1% target or
  a -0.5% stop, plus statistics over the resulting trade ledger.
* `trader.py` — `OnePercentTrader`: the live trading loop (reconciliation of
  existing positions, order placement, order monitoring, main polling loop).

Prices, volumes and account capital are modelled as exact rationals (`Rat`);
the Python `int(x)` truncation toward zero and the half-even `round(x, 2)`
are modelled explicitly. Timestamps are seconds as `Nat`.
-/

/-- One OHLCV bar, as consumed by `run_backtest` (the `open` field of the
source data is never read by the engine, so it is not modelled). -/
structure Bar where
  timestamp : Nat
  high : Rat
  low : Rat
  close : Rat
  volume : Rat
deriving DecidableEq, Repr

/-- The `self.position` dict built on entry in `run_backtest`
(backtest.py lines 62-68). -/
structure Position where
  shares : Int
  entry_price : Rat
  entry_time : Nat
  target_price : Rat
  stop_price : Rat
deriving DecidableEq, Repr

/-- One record of `self.trades` appended on exit
(backtest.py lines 87-95). -/
structure Trade where
  entry_time : Nat
  exit_time : Nat
  entry_price : Rat
  exit_price : Rat
  shares : Int
  pl : Rat
  exit_type : String
deriving DecidableEq, Repr

/-- The mutable state of `OnePercentBacktest` during `run_backtest`:
`self.capital`, `self.position`, `self.trades`. -/
structure BacktestState where
  capital : Rat
  position : Option Position
  trades : List Trade
deriving DecidableEq, Repr

/-- `self.target_profit_pct = 0.01` (backtest.py line 19). -/
def target_profit_pct : Rat := 1 / 100

/-- `self.stop_loss_pct = 0.005` (backtest.py line 20). -/
def stop_loss_pct : Rat := 5 / 1000

/-- Python `int(q)`: truncation toward zero. -/
def pyInt (q : Rat) : Int :=
  if 0 ≤ q then Int.floor q else -Int.floor (-q)

/-- The volume mean of the slice `df.iloc[i-20:i]` (backtest.py line 57):
the mean volume of rows `i-20 .. i-1`. -/
def avg_volume (df : List Bar) (i : Nat) : Rat :=
  let w := (df.drop (i - 20)).take 20
  ((w.map Bar.volume).sum) / (w.length : Rat)

/-- The entry half of the loop body (backtest.py lines 55-68): when flat,
once `i >= 20`, enter iff the current volume exceeds 1.2 times the trailing
20-bar average; shares are `int(capital / close)`. -/
def tryEntry (df : List Bar) (s : BacktestState) (i : Nat) (bar : Bar) :
    BacktestState :=
  if 20 ≤ i then
    if bar.volume > avg_volume df i * (12 / 10) then
      ⟨s.capital,
        some ⟨pyInt (s.capital / bar.close), bar.close, bar.timestamp,
          bar.close * (1 + target_profit_pct),
          bar.close * (1 - stop_loss_pct)⟩,
        s.trades⟩
    else s
  else s

/-- The exit half of the loop body (backtest.py lines 70-98): exit iff
`high >= target or low <= stop`; the target branch is checked first, the
fill is exactly the pre-computed target/stop price, and
`pl = (exit_price - entry_price) * shares` is credited to capital. -/
def tryExit (s : BacktestState) (p : Position) (bar : Bar) : BacktestState :=
  if bar.high ≥ p.target_price ∨ bar.low ≤ p.stop_price then
    if bar.high ≥ p.target_price then
      ⟨s.capital + (p.target_price - p.entry_price) * (p.shares : Rat), none,
        s.trades ++ [⟨p.entry_time, bar.timestamp, p.entry_price,
          p.target_price, p.shares,
          (p.target_price - p.entry_price) * (p.shares : Rat), "target"⟩]⟩
    else
      ⟨s.capital + (p.stop_price - p.entry_price) * (p.shares : Rat), none,
        s.trades ++ [⟨p.entry_time, bar.timestamp, p.entry_price,
          p.stop_price, p.shares,
          (p.stop_price - p.entry_price) * (p.shares : Rat), "stop"⟩]⟩
  else s

/-- One iteration of the `for i in range(len(df))` loop of `run_backtest`
(backtest.py lines 51-98). -/
def stepBacktest (df : List Bar) (s : BacktestState) (i : Nat) :
    BacktestState :=
  match df[i]? with
  | none => s
  | some bar =>
    match s.position with
    | none => tryEntry df s i bar
    | some p => tryExit s p bar

/-- `run_backtest` after the data fetch (backtest.py lines 45-98): reset
capital/trades/position, then fold the loop body over all bar indices. -/
def run_backtest (df : List Bar) (initial_capital : Rat) : BacktestState :=
  (List.range df.length).foldl (stepBacktest df)
    { capital := initial_capital, position := none, trades := [] }

-- Rewriting lemmas for the three shapes of a step.

lemma stepBacktest_flat {df : List Bar} {s : BacktestState} {i : Nat}
    {bar : Bar} (hbar : df[i]? = some bar) (hflat : s.position = none) :
    stepBacktest df s i = tryEntry df s i bar := by
  unfold stepBacktest
  rw [hbar, hflat]

lemma stepBacktest_long {df : List Bar} {s : BacktestState} {i : Nat}
    {bar : Bar} {p : Position} (hbar : df[i]? = some bar)
    (hpos : s.position = some p) :
    stepBacktest df s i = tryExit s p bar := by
  unfold stepBacktest
  rw [hbar, hpos]

/-- A flat filler bar with volume 1000. -/
def fillerBar : Bar := ⟨0, 100, 100, 100, 1000⟩

/-- Scenario bars from the spec: 20 bars of volume 1000, then a spike bar
with volume 1300 and close 100. -/
def c1_df : List Bar :=
  [fillerBar, fillerBar, fillerBar, fillerBar, fillerBar,
   fillerBar, fillerBar, fillerBar, fillerBar, fillerBar,
   fillerBar, fillerBar, fillerBar, fillerBar, fillerBar,
   fillerBar, fillerBar, fillerBar, fillerBar, fillerBar,
   ⟨20, 100, 100, 100, 1300⟩]

/-- Claim C1: at any index where the engine is flat, if `i ≥ 20` and the
volume of the bar exceeds 1.2 times the mean volume of bars `i-20 .. i-1`, the
engine enters a long position with `shares = ⌊capital / close⌋`,
`entry_price = close`, `target_price = close × 1.01` and
`stop_price = close × 0.995`; if `i < 20` no entry occurs. -/
theorem c1_entry_rule (df : List Bar) (i : Nat) (s : BacktestState)
    (bar : Bar) (hflat : s.position = none) (hbar : df[i]? = some bar) :
    (20 ≤ i → bar.volume > avg_volume df i * (12 / 10) →
      0 ≤ s.capital → 0 < bar.close →
      stepBacktest df s i = ⟨s.capital,
        some ⟨Int.floor (s.capital / bar.close), bar.close, bar.timestamp,
          bar.close * (101 / 100), bar.close * (995 / 1000)⟩, s.trades⟩) ∧
    (i < 20 → stepBacktest df s i = s) := by
  rw [stepBacktest_flat hbar hflat]
  constructor
  · intro h20 hvol hcap hclose
    unfold tryEntry
    rw [if_pos h20, if_pos hvol]
    have hq : 0 ≤ s.capital / bar.close := by positivity
    have hshares : pyInt (s.capital / bar.close) =
        Int.floor (s.capital / bar.close) := by
      unfold pyInt
      rw [if_pos hq]
    rw [hshares]
    have htp : bar.close * (1 + target_profit_pct) =
        bar.close * (101 / 100) := by
      unfold target_profit_pct; ring
    have hsp : bar.close * (1 - stop_loss_pct) =
        bar.close * (995 / 1000) := by
      unfold stop_loss_pct; ring
    rw [htp, hsp]
  · intro hlt
    unfold tryEntry
    rw [if_neg (by omega)]

/-- Witness for C1: the spec scenario. At bar 20 (volume 1300 against a
trailing mean of 1000, close 100, capital 10000), the engine enters with
100 shares, target 101 and stop 99.5. -/
theorem c1_entry_rule_witness :
    stepBacktest c1_df ⟨10000, none, []⟩ 20 =
    ⟨10000, some ⟨Int.floor ((10000 : Rat) / 100), 100, 20, 100 * (101 / 100),
      100 * (995 / 1000)⟩, []⟩ :=
  (c1_entry_rule c1_df 20 ⟨10000, none, []⟩ ⟨20, 100, 100, 100, 1300⟩
    rfl rfl).1 (by norm_num)
    (by norm_num [avg_volume, c1_df, fillerBar]) (by norm_num) (by norm_num)

/-- Claim C2: while holding a position, an exit occurs iff
`high ≥ target_price` or `low ≤ stop_price`; when `high ≥ target_price`
(including ties where both conditions hold) the exit fills exactly at
`target_price` with type `"target"`, otherwise exactly at `stop_price`
with type `"stop"`; the recorded `pl` is `(exit_price − entry_price) ×
shares`, never derived from the high or low of the bar. -/
theorem c2_exit_rule (df : List Bar) (i : Nat) (s : BacktestState)
    (p : Position) (bar : Bar) (hpos : s.position = some p)
    (hbar : df[i]? = some bar) :
    (bar.high ≥ p.target_price →
      stepBacktest df s i =
        ⟨s.capital + (p.target_price - p.entry_price) * (p.shares : Rat),
          none,
          s.trades ++ [⟨p.entry_time, bar.timestamp, p.entry_price,
            p.target_price, p.shares,
            (p.target_price - p.entry_price) * (p.shares : Rat),
            "target"⟩]⟩) ∧
    (¬ bar.high ≥ p.target_price → bar.low ≤ p.stop_price →
      stepBacktest df s i =
        ⟨s.capital + (p.stop_price - p.entry_price) * (p.shares : Rat),
          none,
          s.trades ++ [⟨p.entry_time, bar.timestamp, p.entry_price,
            p.stop_price, p.shares,
            (p.stop_price - p.entry_price) * (p.shares : Rat),
            "stop"⟩]⟩) ∧
    (¬ bar.high ≥ p.target_price → ¬ bar.low ≤ p.stop_price →
      stepBacktest df s i = s) := by
  rw [stepBacktest_long hbar hpos]
  refine ⟨fun ht => ?_, fun ht hl => ?_, fun ht hl => ?_⟩
  · unfold tryExit
    rw [if_pos (Or.inl ht), if_pos ht]
  · unfold tryExit
    rw [if_pos (Or.inr hl), if_neg ht]
  · unfold tryExit
    rw [if_neg]
    rintro (h | h)
    · exact ht h
    · exact hl h

/-- Witness for C2: a bar whose high reaches the target and whose low also
breaches the stop on the same bar; the tie resolves to a target exit filled
exactly at the pre-computed target price 101, with
`pl = (101 − 100) × 100 = 100`. -/
theorem c2_exit_rule_witness :
    stepBacktest [⟨7, 102, 99, 100, 1000⟩]
      ⟨10000, some ⟨100, 100, 3, 101, 199/2⟩, []⟩ 0 =
    ⟨10000 + ((101 : Rat) - 100) * ((100 : Int) : Rat), none,
      [⟨3, 7, 100, 101, 100, ((101 : Rat) - 100) * ((100 : Int) : Rat),
        "target"⟩]⟩ :=
  (c2_exit_rule [⟨7, 102, 99, 100, 1000⟩]
    0 ⟨10000, some ⟨100, 100, 3, 101, 199/2⟩, []⟩
    ⟨100, 100, 3, 101, 199/2⟩ ⟨7, 102, 99, 100, 1000⟩
    rfl rfl).1 (by norm_num)

-- A single step either leaves capital and ledger untouched, or appends
-- exactly one trade and adds its pl to capital.

lemma stepBacktest_oob {df : List Bar} {s : BacktestState} {i : Nat}
    (hbar : df[i]? = none) : stepBacktest df s i = s := by
  unfold stepBacktest
  rw [hbar]

lemma stepBacktest_cases (df : List Bar) (s : BacktestState) (i : Nat) :
    ((stepBacktest df s i).capital = s.capital ∧
      (stepBacktest df s i).trades = s.trades) ∨
    (∃ t, (stepBacktest df s i).trades = s.trades ++ [t] ∧
      (stepBacktest df s i).capital = s.capital + t.pl) := by
  cases hbar : df[i]? with
  | none => rw [stepBacktest_oob hbar]; exact Or.inl ⟨rfl, rfl⟩
  | some bar =>
    cases hpos : s.position with
    | none =>
      rw [stepBacktest_flat hbar hpos]
      left
      unfold tryEntry
      by_cases h20 : 20 ≤ i
      · by_cases hv : bar.volume > avg_volume df i * (12 / 10)
        · rw [if_pos h20, if_pos hv]; exact ⟨rfl, rfl⟩
        · rw [if_pos h20, if_neg hv]; exact ⟨rfl, rfl⟩
      · rw [if_neg h20]; exact ⟨rfl, rfl⟩
    | some p =>
      rw [stepBacktest_long hbar hpos]
      unfold tryExit
      by_cases hex : bar.high ≥ p.target_price ∨ bar.low ≤ p.stop_price
      · rw [if_pos hex]
        by_cases ht : bar.high ≥ p.target_price
        · rw [if_pos ht]; exact Or.inr ⟨_, rfl, rfl⟩
        · rw [if_neg ht]; exact Or.inr ⟨_, rfl, rfl⟩
      · rw [if_neg hex]; exact Or.inl ⟨rfl, rfl⟩

lemma stepBacktest_capital_inv (df : List Bar) (s : BacktestState) (i : Nat) :
    (stepBacktest df s i).capital -
      ((stepBacktest df s i).trades.map Trade.pl).sum =
    s.capital - (s.trades.map Trade.pl).sum := by
  rcases stepBacktest_cases df s i with ⟨hc, ht⟩ | ⟨t, ht, hc⟩
  · rw [hc, ht]
  · rw [hc, ht]
    simp only [List.map_append, List.sum_append, List.map_cons,
      List.map_nil, List.sum_cons, List.sum_nil]
    ring

lemma foldl_capital_inv (df : List Bar) :
    ∀ (l : List Nat) (s : BacktestState),
      ((l.foldl (stepBacktest df) s).capital -
        (((l.foldl (stepBacktest df) s).trades.map Trade.pl).sum)) =
      s.capital - ((s.trades.map Trade.pl).sum) := by
  intro l
  induction l with
  | nil => intro s; rfl
  | cons i rest ih =>
    intro s
    simp only [List.foldl_cons]
    rw [ih (stepBacktest df s i), stepBacktest_capital_inv]

/-- Claim C4: capital is mutated only when a position closes. A step either
leaves capital and the ledger unchanged (in particular, entering a position
does), or appends exactly one trade and adds its `pl` to capital; hence the
final capital of a run equals the initial capital plus the sum of `pl` over
the trade ledger, and a position still open at the end of the bars
contributes nothing. -/
theorem c4_capital_conservation :
    (∀ (df : List Bar) (init : Rat),
      (run_backtest df init).capital =
        init + (((run_backtest df init).trades.map Trade.pl).sum)) ∧
    (∀ (df : List Bar) (s : BacktestState) (i : Nat),
      ((stepBacktest df s i).capital = s.capital ∧
        (stepBacktest df s i).trades = s.trades) ∨
      (∃ t, (stepBacktest df s i).trades = s.trades ++ [t] ∧
        (stepBacktest df s i).capital = s.capital + t.pl)) := by
  constructor
  · intro df init
    have h := foldl_capital_inv df (List.range df.length)
      ⟨init, none, []⟩
    unfold run_backtest
    have h2 := h
    simp only [List.map_nil, List.sum_nil, sub_zero] at h2
    linarith [h2]
  · intro df s i
    exact stepBacktest_cases df s i

/-- The numeric fields of the dict returned by `get_stats`
(backtest.py lines 100-144); the dollar/percent string formatting of the
returned dict is presentation only and is not modelled. -/
structure Stats where
  total_trades : Nat
  profitable_trades : Nat
  losing_trades : Nat
  total_pl : Rat
  win_rate : Rat
  avg_profit : Rat
  max_profit : Rat
  avg_loss : Rat
  max_loss : Rat
  target_exits : Nat
  stop_exits : Nat
deriving DecidableEq, Repr

/-- `get_stats` either returns the string `"No trades executed"` (the
distinguished no-trades result) or the statistics dict. -/
inductive StatsResult where
  | noTrades : StatsResult
  | stats : Stats → StatsResult
deriving DecidableEq, Repr

/-- The trades with positive pl (backtest.py line 106). -/
def profitsOf (trades : List Trade) : List Trade :=
  trades.filter (fun t => decide (0 < t.pl))

/-- The trades with non-positive pl (backtest.py lines 120-121). -/
def lossesOf (trades : List Trade) : List Trade :=
  trades.filter (fun t => decide (t.pl ≤ 0))

/-- Python `max` over a list, defaulting to 0 on `[]` (the call sites guard
against the empty case, where Python would raise). -/
def listMaxD : List Rat → Rat
  | [] => 0
  | x :: xs => xs.foldl max x

/-- Python `min` over a list, defaulting to 0 on `[]`. -/
def listMinD : List Rat → Rat
  | [] => 0
  | x :: xs => xs.foldl min x

/-- `get_stats` (backtest.py lines 100-144). -/
def get_stats (trades : List Trade) : StatsResult :=
  if trades.isEmpty then StatsResult.noTrades
  else
    StatsResult.stats
      ⟨trades.length,
       (profitsOf trades).length,
       trades.length - (profitsOf trades).length,
       (trades.map Trade.pl).sum,
       (if 0 < trades.length then
          ((profitsOf trades).length : Rat) / (trades.length : Rat) else 0),
       (if 0 < (profitsOf trades).length then
          ((profitsOf trades).map Trade.pl).sum /
            ((profitsOf trades).length : Rat) else 0),
       (if 0 < (profitsOf trades).length then
          listMaxD ((profitsOf trades).map Trade.pl) else 0),
       (if 0 < trades.length - (profitsOf trades).length then
          ((lossesOf trades).map Trade.pl).sum /
            ((trades.length - (profitsOf trades).length : Nat) : Rat) else 0),
       (if 0 < trades.length - (profitsOf trades).length then
          listMinD ((lossesOf trades).map Trade.pl) else 0),
       (trades.filter (fun t => decide (t.exit_type = "target"))).length,
       (trades.filter (fun t => decide (t.exit_type = "stop"))).length⟩

-- Every trade is counted exactly once across the two partitions.

lemma profits_losses_partition (trades : List Trade) :
    (profitsOf trades).length + (lossesOf trades).length = trades.length := by
  induction trades with
  | nil => rfl
  | cons t ts ih =>
    by_cases h : 0 < t.pl
    · have h2 : ¬ t.pl ≤ 0 := not_le.mpr h
      simp only [profitsOf, lossesOf, List.filter_cons] at *
      rw [if_pos (decide_eq_true h), if_neg (by simp [h2])]
      simp only [List.length_cons]
      omega
    · have h2 : t.pl ≤ 0 := not_lt.mp h
      simp only [profitsOf, lossesOf, List.filter_cons] at *
      rw [if_neg (by simp [h]), if_pos (decide_eq_true h2)]
      simp only [List.length_cons]
      omega

/-- Claim C3: `get_stats` of an empty ledger is the distinguished no-trades
result; on a non-empty ledger the trades are partitioned into profits
(`pl > 0`) and losses (`pl ≤ 0`) — a trade with `pl = 0` counts as a loss —
and when `profitable_trades = 0` or `losing_trades = 0` the corresponding
win rate and average/maximum figures are 0 rather than a division by
zero. -/
theorem c3_stats_safety :
    get_stats [] = StatsResult.noTrades ∧
    ∀ (trades : List Trade) (st : Stats),
      get_stats trades = StatsResult.stats st →
      trades ≠ [] ∧
      st.profitable_trades = (profitsOf trades).length ∧
      st.losing_trades = (lossesOf trades).length ∧
      (st.profitable_trades = 0 →
        st.win_rate = 0 ∧ st.avg_profit = 0 ∧ st.max_profit = 0) ∧
      (st.losing_trades = 0 → st.avg_loss = 0 ∧ st.max_loss = 0) := by
  constructor
  · rfl
  · intro trades st h
    unfold get_stats at h
    by_cases hemp : trades.isEmpty
    · rw [if_pos hemp] at h
      exact absurd h (by simp)
    · rw [if_neg hemp] at h
      injection h with h
      subst h
      have hne : trades ≠ [] := by
        simpa [List.isEmpty_iff] using hemp
      have hpart := profits_losses_partition trades
      refine ⟨hne, rfl, ?_, ?_, ?_⟩
      · show trades.length - (profitsOf trades).length =
          (lossesOf trades).length
        omega
      · intro hp
        simp only at hp
        refine ⟨?_, ?_, ?_⟩
        · simp only [hp, Nat.cast_zero, zero_div, ite_self]
        · simp only [hp, lt_irrefl, if_false]
        · simp only [hp, lt_irrefl, if_false]
      · intro hl
        simp only at hl
        refine ⟨?_, ?_⟩
        · simp only [hl, lt_irrefl, if_false]
        · simp only [hl, lt_irrefl, if_false]

/-- A single losing trade used to instantiate the statistics claims. -/
def c3_trade : Trade := ⟨0, 5, 100, 199/2, 100, -50, "stop"⟩

/-- Witness for C3: a one-trade ledger whose trade lost 50; the stats show
zero profitable trades, one losing trade, and all profit figures 0. -/
theorem c3_stats_safety_witness :
    [c3_trade] ≠ [] ∧
    (Stats.mk 1 0 1 (-50) 0 0 0 (-50) (-50) 0 1).profitable_trades =
      (profitsOf [c3_trade]).length ∧
    (Stats.mk 1 0 1 (-50) 0 0 0 (-50) (-50) 0 1).losing_trades =
      (lossesOf [c3_trade]).length ∧
    ((Stats.mk 1 0 1 (-50) 0 0 0 (-50) (-50) 0 1).profitable_trades = 0 →
      (Stats.mk 1 0 1 (-50) 0 0 0 (-50) (-50) 0 1).win_rate = 0 ∧
      (Stats.mk 1 0 1 (-50) 0 0 0 (-50) (-50) 0 1).avg_profit = 0 ∧
      (Stats.mk 1 0 1 (-50) 0 0 0 (-50) (-50) 0 1).max_profit = 0) ∧
    ((Stats.mk 1 0 1 (-50) 0 0 0 (-50) (-50) 0 1).losing_trades = 0 →
      (Stats.mk 1 0 1 (-50) 0 0 0 (-50) (-50) 0 1).avg_loss = 0 ∧
      (Stats.mk 1 0 1 (-50) 0 0 0 (-50) (-50) 0 1).max_loss = 0) :=
  c3_stats_safety.2 [c3_trade] (Stats.mk 1 0 1 (-50) 0 0 0 (-50) (-50) 0 1)
    (by
      norm_num [get_stats, profitsOf, lossesOf, c3_trade, listMinD,
        List.filter_cons]
      decide)

/-- Scenario bars for the zero-share edge case: 20 bars of volume 1000,
then a spike bar whose close (20000) exceeds the capital (10000). -/
def c10_df : List Bar :=
  [fillerBar, fillerBar, fillerBar, fillerBar, fillerBar,
   fillerBar, fillerBar, fillerBar, fillerBar, fillerBar,
   fillerBar, fillerBar, fillerBar, fillerBar, fillerBar,
   fillerBar, fillerBar, fillerBar, fillerBar, fillerBar,
   ⟨20, 20000, 20000, 20000, 1300⟩]

/-- Claim C10: if an entry signal fires on a bar whose close exceeds the
current capital, the engine still enters a position with
`shares = int(capital/close) = 0` and capital and ledger unchanged; the
position blocks any further entry until an exit condition triggers, at
which point a trade with `pl = 0` is recorded, capital is unchanged, and
`get_stats` counts that trade as a losing trade, not a win. -/
theorem c10_zero_share_trade :
    (∀ (df : List Bar) (i : Nat) (s : BacktestState) (bar : Bar),
      s.position = none → df[i]? = some bar → 20 ≤ i →
      bar.volume > avg_volume df i * (12 / 10) →
      0 ≤ s.capital → s.capital < bar.close →
      stepBacktest df s i = ⟨s.capital,
        some ⟨0, bar.close, bar.timestamp, bar.close * (1 + target_profit_pct),
          bar.close * (1 - stop_loss_pct)⟩, s.trades⟩) ∧
    (∀ (df : List Bar) (i : Nat) (s : BacktestState) (p : Position)
      (bar : Bar),
      s.position = some p → p.shares = 0 → df[i]? = some bar →
      (bar.high ≥ p.target_price ∨ bar.low ≤ p.stop_price) →
      ∃ t, stepBacktest df s i = ⟨s.capital, none, s.trades ++ [t]⟩ ∧
        t.pl = 0 ∧ t.shares = 0) ∧
    (∀ (df : List Bar) (i : Nat) (s : BacktestState) (p : Position)
      (bar : Bar),
      s.position = some p → df[i]? = some bar →
      ¬ bar.high ≥ p.target_price → ¬ bar.low ≤ p.stop_price →
      stepBacktest df s i = s) ∧
    (∀ t : Trade, t.pl = 0 →
      ∃ st, get_stats [t] = StatsResult.stats st ∧
        st.profitable_trades = 0 ∧ st.losing_trades = 1) := by
  refine ⟨?_, ?_, ?_, ?_⟩
  · intro df i s bar hflat hbar h20 hvol hcap hlt
    rw [stepBacktest_flat hbar hflat]
    unfold tryEntry
    rw [if_pos h20, if_pos hvol]
    have hclose : 0 < bar.close := lt_of_le_of_lt hcap hlt
    have hq : 0 ≤ s.capital / bar.close := by positivity
    have hshares : pyInt (s.capital / bar.close) = 0 := by
      unfold pyInt
      rw [if_pos hq]
      apply Int.floor_eq_zero_iff.mpr
      exact ⟨hq, (div_lt_one hclose).mpr hlt⟩
    rw [hshares]
  · intro df i s p bar hpos hsh hbar hcond
    rw [stepBacktest_long hbar hpos]
    unfold tryExit
    rw [if_pos hcond]
    have hz : (p.shares : Rat) = 0 := by rw [hsh]; norm_num
    by_cases ht : bar.high ≥ p.target_price
    · rw [if_pos ht]
      refine ⟨⟨p.entry_time, bar.timestamp, p.entry_price, p.target_price,
        p.shares, (p.target_price - p.entry_price) * (p.shares : Rat),
        "target"⟩, ?_, ?_, hsh⟩
      · rw [hz, mul_zero, add_zero]
      · show (p.target_price - p.entry_price) * (p.shares : Rat) = 0
        rw [hz, mul_zero]
    · rw [if_neg ht]
      refine ⟨⟨p.entry_time, bar.timestamp, p.entry_price, p.stop_price,
        p.shares, (p.stop_price - p.entry_price) * (p.shares : Rat),
        "stop"⟩, ?_, ?_, hsh⟩
      · rw [hz, mul_zero, add_zero]
      · show (p.stop_price - p.entry_price) * (p.shares : Rat) = 0
        rw [hz, mul_zero]
  · intro df i s p bar hpos hbar ht hl
    rw [stepBacktest_long hbar hpos]
    unfold tryExit
    rw [if_neg]
    rintro (h | h)
    · exact ht h
    · exact hl h
  · intro t ht
    refine ⟨_, rfl, ?_, ?_⟩
    · show (profitsOf [t]).length = 0
      simp [profitsOf, List.filter_cons, ht]
    · show [t].length - (profitsOf [t]).length = 1
      simp [profitsOf, List.filter_cons, ht]

/-- Witness for C10: at the spike bar with close 20000 and capital 10000,
the engine enters a position of 0 shares, leaving capital untouched. -/
theorem c10_zero_share_trade_witness :
    stepBacktest c10_df ⟨10000, none, []⟩ 20 =
    ⟨10000, some ⟨0, 20000, 20, 20000 * (1 + target_profit_pct),
      20000 * (1 - stop_loss_pct)⟩, []⟩ :=
  c10_zero_share_trade.1 c10_df 20 ⟨10000, none, []⟩
    ⟨20, 20000, 20000, 20000, 1300⟩ rfl rfl (by norm_num)
    (by norm_num [avg_volume, c10_df, fillerBar]) (by norm_num) (by norm_num)

/-- `self.target_profit_pct = 0.01` (trader.py line 40). -/
def trader_target_profit_pct : Rat := 1 / 100

/-- `self.stop_loss_pct = 0.005` (trader.py line 41). -/
def trader_stop_loss_pct : Rat := 5 / 1000

/-- Python 3 `round` to an integer: round half to even. -/
def pyRoundHalfEven (x : Rat) : Int :=
  if x - Int.floor x < 1 / 2 then Int.floor x
  else if (1 : Rat) / 2 < x - Int.floor x then Int.floor x + 1
  else if Int.floor x % 2 = 0 then Int.floor x else Int.floor x + 1

/-- Python `round(x, 2)`. -/
def pyRound2 (x : Rat) : Rat := (pyRoundHalfEven (x * 100) : Rat) / 100

/-- `target_price = round(float(position.avg_entry_price) * 1.01, 2)`
(trader.py line 115, in `place_sell_orders`). -/
def live_sell_target_price (avg_entry_price : Rat) : Rat :=
  pyRound2 (avg_entry_price * (101 / 100))

/-- `stop_price = round(float(position.avg_entry_price) * 0.99, 2)`
(trader.py line 116, in `place_sell_orders`). -/
def live_sell_stop_price (avg_entry_price : Rat) : Rat :=
  pyRound2 (avg_entry_price * (99 / 100))

lemma pyRoundHalfEven_err (x : Rat) :
    |(pyRoundHalfEven x : Rat) - x| ≤ 1 / 2 := by
  unfold pyRoundHalfEven
  have h1 : (Int.floor x : Rat) ≤ x := Int.floor_le x
  have h2 : x < (Int.floor x : Rat) + 1 := Int.lt_floor_add_one x
  by_cases hlt : x - (Int.floor x : Rat) < 1 / 2
  · rw [if_pos hlt, abs_le]
    constructor <;> linarith
  · rw [if_neg hlt]
    by_cases hgt : (1 : Rat) / 2 < x - (Int.floor x : Rat)
    · rw [if_pos hgt]
      push_cast
      rw [abs_le]
      constructor <;> linarith
    · rw [if_neg hgt]
      have heq : x - (Int.floor x : Rat) = 1 / 2 :=
        le_antisymm (not_lt.mp hgt) (not_lt.mp hlt)
      by_cases hev : Int.floor x % 2 = 0
      · rw [if_pos hev, abs_le]
        constructor <;> linarith
      · rw [if_neg hev]
        push_cast
        rw [abs_le]
        constructor <;> linarith

lemma pyRound2_err (x : Rat) : |pyRound2 x - x| ≤ 1 / 200 := by
  unfold pyRound2
  have h := pyRoundHalfEven_err (x * 100)
  rw [abs_le] at h ⊢
  obtain ⟨hl, hr⟩ := h
  constructor <;> [linarith; linarith]

/-- Claim C5: the live order-placement path `place_sell_orders` uses a
0.99 stop multiplier (a 1% stop) — its stop price is within a cent-rounding
error of `entry × 0.99`, and at entry 100 it is exactly 99 — whereas the
backtest engine and the `stop_loss_pct` field of the trader correspond to a
0.995 multiplier (a 0.5% stop, 99.5 at entry 100); the take-profit side
uses the 1.01 multiplier in both paths. -/
theorem c5_stop_price_inconsistency :
    (∀ e : Rat, |live_sell_target_price e - e * (101 / 100)| ≤ 1 / 200) ∧
    (∀ e : Rat, |live_sell_stop_price e - e * (99 / 100)| ≤ 1 / 200) ∧
    (1 - trader_stop_loss_pct = 995 / 1000) ∧
    (1 - stop_loss_pct = 995 / 1000) ∧
    (1 + target_profit_pct = 101 / 100) ∧
    (1 + trader_target_profit_pct = 101 / 100) ∧
    live_sell_stop_price 100 = 99 ∧
    (100 : Rat) * (1 - stop_loss_pct) = 199 / 2 ∧
    live_sell_target_price 100 = 101 ∧
    (100 : Rat) * (1 + target_profit_pct) = 101 := by
  refine ⟨fun e => pyRound2_err (e * (101 / 100)),
    fun e => pyRound2_err (e * (99 / 100)), ?_, ?_, ?_, ?_, ?_, ?_, ?_, ?_⟩
  · norm_num [trader_stop_loss_pct]
  · norm_num [stop_loss_pct]
  · norm_num [target_profit_pct]
  · norm_num [trader_target_profit_pct]
  · norm_num [live_sell_stop_price, pyRound2, pyRoundHalfEven]
  · norm_num [stop_loss_pct]
  · norm_num [live_sell_target_price, pyRound2, pyRoundHalfEven]
  · norm_num [target_profit_pct]

/-- A broker-reported position, as consumed by
`check_and_handle_existing_position` and `place_sell_orders`. -/
structure BrokerPosition where
  symbol : String
  qty : Int
  qty_available : Int
  avg_entry_price : Rat
deriving DecidableEq, Repr

/-- A broker-reported order, as consumed by
`check_and_handle_existing_position` and `monitor_orders`. -/
structure BrokerOrder where
  id : Nat
  symbol : String
  side : String
  otype : String
  status : String
  created_at : Nat
deriving DecidableEq, Repr

/-- Whether any order of the symbol is a sell limit order, classified as
the take-profit leg (trader.py line 190). -/
def has_tp_order (symbol : String) (orders : List BrokerOrder) : Bool :=
  orders.any fun o =>
    o.symbol == symbol && o.side == "sell" && o.otype == "limit"

/-- Whether any order of the symbol is a sell stop order, classified as
the stop-loss leg (trader.py line 191). -/
def has_sl_order (symbol : String) (orders : List BrokerOrder) : Bool :=
  orders.any fun o =>
    o.symbol == symbol && o.side == "sell" && o.otype == "stop"

/-- Observable outcome of `check_and_handle_existing_position`: whether it
returned True, which position and entry price it adopted into
`self.position` / `self.entry_price`, and whether it invoked
`place_sell_orders`. -/
structure CheckResult where
  found : Bool
  adopted : Option BrokerPosition
  entry_price : Option Rat
  placed_sell_orders : Bool
deriving DecidableEq, Repr

/-- `check_and_handle_existing_position` (trader.py lines 178-210):
take the first broker position matching the symbol; if found, adopt it,
and call `place_sell_orders` iff the take-profit or stop-loss sell order
is missing among the open orders. -/
def check_and_handle_existing_position (symbol : String)
    (positions : List BrokerPosition) (orders : List BrokerOrder) :
    CheckResult :=
  match positions.find? (fun p => p.symbol == symbol) with
  | some position =>
    ⟨true, some position, some position.avg_entry_price,
      !(has_tp_order symbol orders && has_sl_order symbol orders)⟩
  | none => ⟨false, none, none, false⟩

/-- The environment one iteration of the `while True` loop of `run`
(trader.py lines 265-297) observes: whether the body raises, the market
clock, the broker positions and orders, and the market-conditions
check. -/
structure LoopEnv where
  raises : Bool
  market_open : Bool
  positions : List BrokerPosition
  orders : List BrokerOrder
  conditions_ok : Bool
deriving Repr

/-- Which branch of the loop body an iteration took. -/
inductive IterStep where
  | raised
  | marketClosed
  | existingPosition
  | conditionsNotMet
  | tradedOrAttempted
deriving DecidableEq, Repr

/-- Observable outcome of one loop iteration: branch taken, whether the
loop continues, seconds slept before the next pass, and whether
`place_buy_order` was invoked. -/
structure IterResult where
  step : IterStep
  continues : Bool
  sleep_seconds : Nat
  submits_buy : Bool
deriving DecidableEq, Repr

/-- One iteration of `run` (trader.py lines 265-297): market-closed,
existing-position and conditions-not-met branches each sleep 60 and
continue without buying; only the final branch calls `place_buy_order`;
an exception in the body is caught, logged, and followed by a 60-second
sleep. -/
def run_iteration (symbol : String) (env : LoopEnv) : IterResult :=
  if env.raises then ⟨IterStep.raised, true, 60, false⟩
  else if env.market_open = false then
    ⟨IterStep.marketClosed, true, 60, false⟩
  else if (check_and_handle_existing_position symbol env.positions
      env.orders).found then
    ⟨IterStep.existingPosition, true, 60, false⟩
  else if env.conditions_ok = false then
    ⟨IterStep.conditionsNotMet, true, 60, false⟩
  else ⟨IterStep.tradedOrAttempted, true, 60, true⟩

/-- Bounded observation of the `while True` loop: result `true` means the
loop terminated by itself within the given number of iterations. -/
def run_loop (symbol : String) (envs : Nat → LoopEnv) :
    Nat → Nat → Bool
  | _, 0 => false
  | k, fuel + 1 =>
    if (run_iteration symbol (envs k)).continues then
      run_loop symbol envs (k + 1) fuel
    else true

/-- Claim C6: when the broker reports an open position for the symbol, the
controller adopts it (entry price = broker-reported average entry price),
calls `place_sell_orders` whenever the take-profit or stop-loss sell order
is missing, and that loop iteration takes the existing-position branch —
it never reaches `place_buy_order`. -/
theorem c6_reconciliation (symbol : String) (env : LoopEnv)
    (p : BrokerPosition)
    (hfind : env.positions.find? (fun q => q.symbol == symbol) = some p)
    (hopen : env.market_open = true) (hok : env.raises = false) :
    (check_and_handle_existing_position symbol env.positions
      env.orders).found = true ∧
    (check_and_handle_existing_position symbol env.positions
      env.orders).adopted = some p ∧
    (check_and_handle_existing_position symbol env.positions
      env.orders).entry_price = some p.avg_entry_price ∧
    (¬(has_tp_order symbol env.orders = true ∧
        has_sl_order symbol env.orders = true) →
      (check_and_handle_existing_position symbol env.positions
        env.orders).placed_sell_orders = true) ∧
    (run_iteration symbol env).step = IterStep.existingPosition ∧
    (run_iteration symbol env).submits_buy = false := by
  have hch : check_and_handle_existing_position symbol env.positions
      env.orders =
      ⟨true, some p, some p.avg_entry_price,
        !(has_tp_order symbol env.orders &&
          has_sl_order symbol env.orders)⟩ := by
    unfold check_and_handle_existing_position
    rw [hfind]
  have hit : run_iteration symbol env =
      ⟨IterStep.existingPosition, true, 60, false⟩ := by
    unfold run_iteration
    rw [if_neg (by simp [hok]), if_neg (by simp [hopen]),
      if_pos (by rw [hch])]
  refine ⟨by rw [hch], by rw [hch], by rw [hch], ?_, by rw [hit],
    by rw [hit]⟩
  intro hmiss
  rw [hch]
  show (!(has_tp_order symbol env.orders &&
    has_sl_order symbol env.orders)) = true
  cases htp : has_tp_order symbol env.orders with
  | false => rfl
  | true =>
    cases hsl : has_sl_order symbol env.orders with
    | false => rfl
    | true => exact absurd ⟨htp, hsl⟩ hmiss

/-- A broker position used to instantiate the reconciliation claim. -/
def c6_pos : BrokerPosition := ⟨"AAPL", 10, 10, 150⟩

/-- The loop environment for the reconciliation scenario: market open, one
open position, no open orders. -/
def c6_env : LoopEnv := ⟨false, true, [c6_pos], [], true⟩

/-- Witness for C6: with an open AAPL position and no exit orders on the
book, the controller adopts the position at entry 150, places the exit
orders, and the iteration monitors instead of buying. -/
theorem c6_reconciliation_witness :
    (check_and_handle_existing_position "AAPL" c6_env.positions
      c6_env.orders).found = true ∧
    (check_and_handle_existing_position "AAPL" c6_env.positions
      c6_env.orders).adopted = some c6_pos ∧
    (check_and_handle_existing_position "AAPL" c6_env.positions
      c6_env.orders).entry_price = some c6_pos.avg_entry_price ∧
    (¬(has_tp_order "AAPL" c6_env.orders = true ∧
        has_sl_order "AAPL" c6_env.orders = true) →
      (check_and_handle_existing_position "AAPL" c6_env.positions
        c6_env.orders).placed_sell_orders = true) ∧
    (run_iteration "AAPL" c6_env).step = IterStep.existingPosition ∧
    (run_iteration "AAPL" c6_env).submits_buy = false :=
  c6_reconciliation "AAPL" c6_env c6_pos (by decide) rfl rfl

/-- Claim C9: the live main loop never terminates itself — every branch of
an iteration (exception, market closed, existing position, unfavorable
conditions, and the post-trade path) continues after a 60-second sleep,
so no bounded observation of the loop ever sees it stop. -/
theorem c9_loop_never_self_terminates :
    (∀ (symbol : String) (env : LoopEnv),
      (run_iteration symbol env).continues = true ∧
      (run_iteration symbol env).sleep_seconds = 60) ∧
    (∀ (symbol : String) (envs : Nat → LoopEnv) (k fuel : Nat),
      run_loop symbol envs k fuel = false) := by
  have hstep : ∀ (symbol : String) (env : LoopEnv),
      (run_iteration symbol env).continues = true ∧
      (run_iteration symbol env).sleep_seconds = 60 := by
    intro symbol env
    unfold run_iteration
    by_cases h1 : env.raises = true
    · rw [if_pos h1]; exact ⟨rfl, rfl⟩
    · rw [if_neg h1]
      by_cases h2 : env.market_open = false
      · rw [if_pos h2]; exact ⟨rfl, rfl⟩
      · rw [if_neg h2]
        by_cases h3 : (check_and_handle_existing_position symbol
            env.positions env.orders).found = true
        · rw [if_pos h3]; exact ⟨rfl, rfl⟩
        · rw [if_neg h3]
          by_cases h4 : env.conditions_ok = false
          · rw [if_pos h4]; exact ⟨rfl, rfl⟩
          · rw [if_neg h4]; exact ⟨rfl, rfl⟩
  refine ⟨hstep, ?_⟩
  intro symbol envs k fuel
  induction fuel generalizing k with
  | zero => rfl
  | succ n ih =>
    show run_loop symbol envs k (n + 1) = false
    unfold run_loop
    rw [if_pos (hstep symbol (envs k)).1]
    exact ih (k + 1)

/-- The observable state of `monitor_orders`: the `self.order_states` dict
(order id to last-seen status), plus the transition log lines and stale
warnings emitted during the pass. -/
structure MonitorState where
  order_states : List (Nat × String)
  transitions : List (Nat × String)
  stale_warnings : List Nat
deriving DecidableEq, Repr

/-- `self.order_states.get(order.id)` (trader.py line 251). -/
def states_get (states : List (Nat × String)) (id : Nat) : Option String :=
  (states.find? (fun q => q.1 == id)).map Prod.snd

/-- `self.order_states[order.id] = status` (trader.py line 253). -/
def states_set (states : List (Nat × String)) (id : Nat) (st : String) :
    List (Nat × String) :=
  if (states.find? (fun q => q.1 == id)).isSome then
    states.map (fun q => if q.1 == id then (id, st) else q)
  else states ++ [(id, st)]

/-- `(datetime.now() - order.created_at).seconds > 3600`
(trader.py line 256). A Python `timedelta` normalizes its `seconds`
attribute into `[0, 86400)`: it is the total age modulo one day, not the
total age in seconds. -/
def stale_check (now created_at : Nat) : Bool :=
  decide (3600 < (now - created_at) % 86400)

/-- The body of the `for order in orders` loop of `monitor_orders`
(trader.py lines 248-257): for an order of the traded symbol, log a
transition and update the stored status when the current status differs
from the last-seen one, then emit a stale warning when the age check
fires. -/
def monitor_step (symbol : String) (now : Nat) (acc : MonitorState)
    (o : BrokerOrder) : MonitorState :=
  if o.symbol == symbol then
    let acc1 := if states_get acc.order_states o.id ≠ some o.status then
        ⟨states_set acc.order_states o.id o.status,
          acc.transitions ++ [(o.id, o.status)], acc.stale_warnings⟩
      else acc
    if stale_check now o.created_at then
      ⟨acc1.order_states, acc1.transitions, acc1.stale_warnings ++ [o.id]⟩
    else acc1
  else acc

/-- `monitor_orders` (trader.py lines 244-259), given the broker order
list and the current wall-clock time. -/
def monitor_orders (symbol : String) (now : Nat)
    (orders : List BrokerOrder) (states : List (Nat × String)) :
    MonitorState :=
  orders.foldl (monitor_step symbol now) ⟨states, [], []⟩

/-- Claim C7 — the code diverges from it: `monitor_orders` does log status
transitions and update the stored state, but the staleness flag tests
`timedelta.seconds > 3600`, the age modulo one day, not the total age.
An order open 25 hours (created at 0, monitored at 90000 s, so
`90000 % 86400 = 3600`) is older than 1 hour yet raises no stale warning,
while an order open 2 hours is flagged. -/
theorem c7_stale_flag_bug :
    (3600 < 90000 - 0 ∧ stale_check 90000 0 = false) ∧
    stale_check 7200 0 = true ∧
    (monitor_orders "AAPL" 90000 [⟨1, "AAPL", "sell", "limit", "new", 0⟩]
      [(1, "new")]).stale_warnings = [] ∧
    (monitor_orders "AAPL" 7200 [⟨1, "AAPL", "sell", "limit", "new", 0⟩]
      [(1, "new")]).stale_warnings = [1] ∧
    (monitor_orders "AAPL" 7200 [⟨1, "AAPL", "sell", "limit", "new", 0⟩]
      [(1, "new")]).transitions = [] ∧
    (monitor_orders "AAPL" 7200 [⟨1, "AAPL", "sell", "limit", "filled", 0⟩]
      [(1, "new")]).transitions = [(1, "filled")] ∧
    (monitor_orders "AAPL" 7200 [⟨1, "AAPL", "sell", "limit", "filled", 0⟩]
      [(1, "new")]).order_states = [(1, "filled")] := by
  decide

/-- The fill wait of `place_buy_order` (trader.py lines 85-88): re-query
the order status once per second until it equals `filled`; `some k` means
the wait ended at the k-th poll, `none` that it was still spinning when
the (arbitrary) observation bound ran out. The code itself has no such
bound. -/
def wait_for_fill (status : Nat → String) : Nat → Nat → Option Nat
  | 0, _ => none
  | fuel + 1, k =>
    if status k = "filled" then some k
    else wait_for_fill status fuel (k + 1)

lemma wait_for_fill_finds (status : Nat → String) :
    ∀ (j k : Nat), status (k + j) = "filled" →
      ∃ m, wait_for_fill status (j + 1) k = some m ∧
        status m = "filled" ∧ ∀ i, k ≤ i → i < m → status i ≠ "filled" := by
  intro j
  induction j with
  | zero =>
    intro k hk
    refine ⟨k, ?_, by simpa using hk, fun i hi1 hi2 => absurd hi2
      (by omega)⟩
    unfold wait_for_fill
    rw [if_pos (by simpa using hk)]
  | succ n ih =>
    intro k hk
    by_cases h0 : status k = "filled"
    · refine ⟨k, ?_, h0, fun i hi1 hi2 => absurd hi2 (by omega)⟩
      unfold wait_for_fill
      rw [if_pos h0]
    · have hk2 : status ((k + 1) + n) = "filled" := by
        have : (k + 1) + n = k + (n + 1) := by omega
        rw [this]; exact hk
      obtain ⟨m, hm, hf, hnone⟩ := ih (k + 1) hk2
      refine ⟨m, ?_, hf, ?_⟩
      · unfold wait_for_fill
        rw [if_neg h0]
        exact hm
      · intro i hi1 hi2
        rcases Nat.eq_or_lt_of_le hi1 with he | hlt
        · rw [← he]; exact h0
        · exact hnone i hlt hi2

lemma wait_for_fill_spins (status : Nat → String)
    (hnever : ∀ n, status n ≠ "filled") :
    ∀ (fuel k : Nat), wait_for_fill status fuel k = none := by
  intro fuel
  induction fuel with
  | zero => intro k; rfl
  | succ n ih =>
    intro k
    unfold wait_for_fill
    rw [if_neg (hnever k)]
    exact ih (k + 1)

/-- Claim C8: the post-submission wait polls the order status at 1-second
intervals and returns at the first poll reporting `filled`; it has no
timeout or iteration bound, so if the broker never reports a fill
every bounded observation of the wait is still spinning — it terminates
only under the assumption that a fill is eventually reported. -/
theorem c8_unbounded_fill_wait (status : Nat → String) :
    ((∃ n, status n = "filled") →
      ∃ fuel m, wait_for_fill status fuel 0 = some m ∧
        status m = "filled" ∧ ∀ i, i < m → status i ≠ "filled") ∧
    ((∀ n, status n ≠ "filled") →
      ∀ fuel k, wait_for_fill status fuel k = none) := by
  constructor
  · rintro ⟨n, hn⟩
    obtain ⟨m, hm, hf, hnone⟩ := wait_for_fill_finds status n 0
      (by simpa using hn)
    exact ⟨n + 1, m, hm, hf, fun i hi => hnone i (Nat.zero_le i) hi⟩
  · exact wait_for_fill_spins status

/-- The status history used to instantiate the fill wait: pending twice,
then filled at the third poll. -/
def c8_status : Nat → String :=
  fun n => if n = 2 then "filled" else "accepted"

/-- Witness for C8: with a fill reported at poll 2, the wait terminates at
exactly that poll, having seen no earlier fill. -/
theorem c8_unbounded_fill_wait_witness :
    ∃ fuel m, wait_for_fill c8_status fuel 0 = some m ∧
      c8_status m = "filled" ∧ ∀ i, i < m → c8_status i ≠ "filled" :=
  (c8_unbounded_fill_wait c8_status).1 ⟨2, rfl⟩
